import Mathlib

/-!
Shallow embedding of the Pikafish evaluation core (src/src/evaluate.cpp):
the simple material evaluation, the blended NNUE evaluation pipeline, the
network-file loader and verifier, and the evaluation tracer.  External
collaborators (the NNUE inference routine, the filesystem, the iostream
number formatting) are modelled as explicit oracle parameters, so every
definition is an executable function of its inputs.
-/

namespace Pikafish

/-- Piece colors (the two sides), as in types.h. -/
inductive Color
  | white
  | black
deriving DecidableEq

/-- The C++ `~` operator on colors: the opposite side. -/
def Color.opp : Color → Color
  | .white => .black
  | .black => .white

/-- Read-only view of a game position.  Modelled from the spec: the Position
class lives in position.h (outside src/); the spec's PositionView exposes
per-color piece counts by type, major material (per color), side to move,
a check predicate and the rule-shuffle counter. -/
structure Position where
  pawnCount : Color → Nat
  advisorCount : Color → Nat
  bishopCount : Color → Nat
  majorMaterialOf : Color → Int
  sideToMove : Color
  rule60 : Int
  checkers : Bool

/-- The no-argument `pos.major_material()`: total major material of both sides. -/
def Position.major_material_total (pos : Position) : Int :=
  pos.majorMaterialOf Color.white + pos.majorMaterialOf Color.black

/-- Modelled from the spec: fixed pawn material weight (defined in types.h,
outside src/; the claims under verification do not depend on its numeric value). -/
def PawnValue : Int := 94

/-- Modelled from the spec: fixed advisor material weight (defined in types.h,
outside src/). -/
def AdvisorValue : Int := 118

/-- Modelled from the spec: fixed bishop (elephant) material weight (defined in
types.h, outside src/). -/
def BishopValue : Int := 118

/-- Modelled from the spec: the mate value sentinel (types.h, outside src/). -/
def VALUE_MATE : Int := 32000

/-- Modelled from the spec: maximal search ply (types.h, outside src/). -/
def MAX_PLY : Int := 246

/-- Modelled from the spec: upper mate sentinel bound (types.h, outside src/). -/
def VALUE_MATE_IN_MAX_PLY : Int := VALUE_MATE - MAX_PLY

/-- Modelled from the spec: lower mate sentinel bound (types.h, outside src/). -/
def VALUE_MATED_IN_MAX_PLY : Int := -VALUE_MATE_IN_MAX_PLY

/-- Modelled from the spec: the "no value" sentinel (types.h, outside src/);
`trace` passes `-VALUE_NONE` and `VALUE_NONE` as maximal bounds. -/
def VALUE_NONE : Int := 32002

/-- The zero value constant from types.h. -/
def VALUE_ZERO : Int := 0

/-- Result of one call to the external NNUE inference routine
`NNUE::evaluate(pos, true, &nnueComplexity, psqtOnly)`: the returned value and
the complexity written through the out-parameter. -/
structure NNUEResult where
  value : Int
  complexity : Int

/-- Oracle for the external NNUE inference routine, given the position and the
`psqtOnly` shortcut flag. -/
abbrev NNUEOracle : Type := Position → Bool → NNUEResult

/-- `Eval::simple_eval` (evaluate.cpp lines 121-126): purely materialistic
evaluation from the point of view of color `c`. -/
def Eval.simple_eval (pos : Position) (c : Color) : Int :=
  PawnValue * ((pos.pawnCount c : Int) - (pos.pawnCount c.opp : Int))
  + AdvisorValue * ((pos.advisorCount c : Int) - (pos.advisorCount c.opp : Int))
  + BishopValue * ((pos.bishopCount c : Int) - (pos.bishopCount c.opp : Int))
  + (pos.majorMaterialOf c - pos.majorMaterialOf c.opp)

/-- The `psqtOnly` shortcut condition of `Eval::evaluate` (line 138):
`alpha - 2500 > simpleEval || simpleEval > beta + 2500`. -/
def psqtOnlyFlag (simpleEval alpha beta : Int) : Bool :=
  decide (alpha - 2500 > simpleEval) || decide (simpleEval > beta + 2500)

/-- `std::clamp(v, lo, hi)`: `lo` if `v < lo`, else `hi` if `hi < v`, else `v`. -/
def cppClamp (v lo hi : Int) : Int :=
  if v < lo then lo else if hi < v then hi else v

/-- `Eval::evaluate` (evaluate.cpp lines 130-157).  C++ `int` arithmetic is
modelled by `Int` (the involved quantities stay far from overflow); C++ `/`
truncates toward zero, which is `Int.tdiv`. -/
def Eval.evaluate (nnueEval : NNUEOracle) (pos : Position)
    (optimism alpha beta : Int) : Int :=
  let stm := pos.sideToMove
  let shuffling := pos.rule60
  let simpleEval := Eval.simple_eval pos stm
  let psqtOnly := psqtOnlyFlag simpleEval alpha beta
  let r := nnueEval pos psqtOnly
  let nnue := r.value
  let nnueComplexity := r.complexity
  let optimism := optimism + Int.tdiv (optimism * (nnueComplexity + |simpleEval - nnue|)) 781
  let nnue := nnue - Int.tdiv (nnue * (nnueComplexity + |simpleEval - nnue|)) 30087
  let mm := Int.tdiv pos.major_material_total 41
  let v := Int.tdiv (nnue * (568 + mm) + optimism * (138 + mm)) 1434
  let v := Int.tdiv (v * (293 - shuffling)) 194
  cppClamp v (VALUE_MATED_IN_MAX_PLY + 1) (VALUE_MATE_IN_MAX_PLY - 1)

/-- The evaluation pipeline of `Eval.evaluate` with the `psqtOnly` flag already
computed; `Eval.evaluate` is definitionally this applied to `psqtOnlyFlag`. -/
def evaluateWithFlag (nnueEval : NNUEOracle) (pos : Position)
    (optimism : Int) (psqtOnly : Bool) : Int :=
  let shuffling := pos.rule60
  let simpleEval := Eval.simple_eval pos pos.sideToMove
  let r := nnueEval pos psqtOnly
  let nnue := r.value
  let nnueComplexity := r.complexity
  let optimism := optimism + Int.tdiv (optimism * (nnueComplexity + |simpleEval - nnue|)) 781
  let nnue := nnue - Int.tdiv (nnue * (nnueComplexity + |simpleEval - nnue|)) 30087
  let mm := Int.tdiv pos.major_material_total 41
  let v := Int.tdiv (nnue * (568 + mm) + optimism * (138 + mm)) 1434
  let v := Int.tdiv (v * (293 - shuffling)) 194
  cppClamp v (VALUE_MATED_IN_MAX_PLY + 1) (VALUE_MATE_IN_MAX_PLY - 1)

/-- Follows the spec's words (refinement target): the pre-damping blended value
of steps 4-7 of the Evaluator specification, with the listed constants
781, 30087, 41, 568, 138, 1434. -/
def specBlendedValue (nnue optimism complexity simpleEval totalMajorMaterial : Int) : Int :=
  let boostedOptimism := optimism + Int.tdiv (optimism * (complexity + |simpleEval - nnue|)) 781
  let discountedNnue := nnue - Int.tdiv (nnue * (complexity + |simpleEval - nnue|)) 30087
  let mm := Int.tdiv totalMajorMaterial 41
  Int.tdiv (discountedNnue * (568 + mm) + boostedOptimism * (138 + mm)) 1434

/-- The pre-damping value computed by `Eval.evaluate` on the given arguments. -/
def preDampValue (nnueEval : NNUEOracle) (pos : Position)
    (optimism alpha beta : Int) : Int :=
  let simpleEval := Eval.simple_eval pos pos.sideToMove
  let r := nnueEval pos (psqtOnlyFlag simpleEval alpha beta)
  specBlendedValue r.value optimism r.complexity simpleEval pos.major_material_total

/-- Modelled from the spec: the draw-shuffle damping factor
`(293 - shuffling)/194`, as an exact rational. -/
def shuffleDampFactor (shuffling : Int) : ℚ :=
  (293 - (shuffling : ℚ)) / 194

/-- A test oracle returning a constant value and complexity. -/
def constOracle (v c : Int) : NNUEOracle := fun _ _ => ⟨v, c⟩

/-- A concrete balanced test position, not in check. -/
def testPos : Position :=
  ⟨fun _ => 5, fun _ => 2, fun _ => 2, fun _ => 3000, Color.white, 0, false⟩

/-- The test position with the rule-shuffle counter at 293. -/
def testPos293 : Position :=
  ⟨fun _ => 5, fun _ => 2, fun _ => 2, fun _ => 3000, Color.white, 293, false⟩

theorem cppClamp_mem (v lo hi : Int) (h : lo ≤ hi) :
    lo ≤ cppClamp v lo hi ∧ cppClamp v lo hi ≤ hi := by
  unfold cppClamp
  split
  · exact ⟨le_refl lo, h⟩
  · split
    · exact ⟨h, le_refl hi⟩
    · omega

theorem evaluate_eq_clamp_damp (f : NNUEOracle) (pos : Position)
    (optimism alpha beta : Int) :
    Eval.evaluate f pos optimism alpha beta =
      cppClamp (Int.tdiv (preDampValue f pos optimism alpha beta * (293 - pos.rule60)) 194)
        (VALUE_MATED_IN_MAX_PLY + 1) (VALUE_MATE_IN_MAX_PLY - 1) := rfl

/-- Claim C1: for every position whose side to move is not in check, and for
every oracle, optimism, alpha and beta, the value returned by `Eval.evaluate`
is at least `VALUE_MATED_IN_MAX_PLY + 1` and at most `VALUE_MATE_IN_MAX_PLY - 1`,
so it never equals or exceeds a mate sentinel. -/
theorem evaluate_strictly_between_sentinels (f : NNUEOracle) (pos : Position)
    (optimism alpha beta : Int) (hck : pos.checkers = false) :
    VALUE_MATED_IN_MAX_PLY + 1 ≤ Eval.evaluate f pos optimism alpha beta ∧
    Eval.evaluate f pos optimism alpha beta ≤ VALUE_MATE_IN_MAX_PLY - 1 :=
  cppClamp_mem _ _ _ (by decide)

/-- Witness for C1 at a concrete oracle, position and arguments. -/
theorem evaluate_strictly_between_sentinels_witness :
    VALUE_MATED_IN_MAX_PLY + 1 ≤ Eval.evaluate (constOracle 100 50) testPos 7 (-50) 50 ∧
    Eval.evaluate (constOracle 100 50) testPos 7 (-50) 50 ≤ VALUE_MATE_IN_MAX_PLY - 1 :=
  evaluate_strictly_between_sentinels (constOracle 100 50) testPos 7 (-50) 50 rfl

/-- Claim C4: `Eval.evaluate` computes its pre-clamp value by exactly the
specified integer arithmetic: optimism boosted by
`optimism * (complexity + |simpleEval - nnue|) / 781`, nnue discounted by
`nnue * (complexity + |simpleEval - nnue|) / 30087`,
`mm = totalMajorMaterial / 41`, and
`v = (nnue * (568 + mm) + optimism * (138 + mm)) / 1434`, followed only by the
shuffle damping and the clamp. -/
theorem evaluate_preclamp_formula (f : NNUEOracle) (pos : Position)
    (optimism alpha beta : Int) :
    Eval.evaluate f pos optimism alpha beta =
      cppClamp
        (Int.tdiv
          (specBlendedValue
              (f pos (psqtOnlyFlag (Eval.simple_eval pos pos.sideToMove) alpha beta)).value
              optimism
              (f pos (psqtOnlyFlag (Eval.simple_eval pos pos.sideToMove) alpha beta)).complexity
              (Eval.simple_eval pos pos.sideToMove)
              pos.major_material_total
            * (293 - pos.rule60)) 194)
        (VALUE_MATED_IN_MAX_PLY + 1) (VALUE_MATE_IN_MAX_PLY - 1) := rfl

/-- Claim C5: the damping factor `(293 - shuffling)/194` is non-increasing in
the shuffle counter, and at a shuffle counter of 293 the value returned by
`Eval.evaluate` is exactly 0 regardless of the oracle and optimism inputs. -/
theorem shuffle_damping (s t : Int) (hst : s ≤ t) (f : NNUEOracle)
    (pos : Position) (optimism alpha beta : Int) (hsh : pos.rule60 = 293) :
    shuffleDampFactor t ≤ shuffleDampFactor s ∧
    Eval.evaluate f pos optimism alpha beta = 0 := by
  constructor
  · unfold shuffleDampFactor
    have h' : (s : ℚ) ≤ (t : ℚ) := by exact_mod_cast hst
    refine div_le_div_of_nonneg_right ?_ (by norm_num)
    linarith
  · rw [evaluate_eq_clamp_damp, hsh]
    norm_num [Int.zero_tdiv, cppClamp, VALUE_MATED_IN_MAX_PLY,
      VALUE_MATE_IN_MAX_PLY, VALUE_MATE, MAX_PLY]

/-- Witness for C5 at concrete shuffle counters and a concrete position with
the counter at 293. -/
theorem shuffle_damping_witness :
    shuffleDampFactor 7 ≤ shuffleDampFactor 0 ∧
    Eval.evaluate (constOracle 100 50) testPos293 7 (-50) 50 = 0 :=
  shuffle_damping 0 7 (by decide) (constOracle 100 50) testPos293 7 (-50) 50 rfl

/-- Claim C6: the `psqtOnly` flag that `Eval.evaluate` passes to the inference
oracle is `psqtOnlyFlag simpleEval alpha beta`, and that flag is true if and
only if `simpleEval` exceeds `beta` by more than 2500 or falls below `alpha`
by more than 2500. -/
theorem psqtOnly_flag_iff (f : NNUEOracle) (pos : Position)
    (optimism alpha beta : Int) :
    (psqtOnlyFlag (Eval.simple_eval pos pos.sideToMove) alpha beta = true ↔
      (Eval.simple_eval pos pos.sideToMove > beta + 2500 ∨
       Eval.simple_eval pos pos.sideToMove < alpha - 2500))
    ∧ Eval.evaluate f pos optimism alpha beta =
        evaluateWithFlag f pos optimism
          (psqtOnlyFlag (Eval.simple_eval pos pos.sideToMove) alpha beta) := by
  constructor
  · simp only [psqtOnlyFlag, Bool.or_eq_true, decide_eq_true_eq]
    omega
  · rfl

/-- Claim C7: `Eval.simple_eval` is antisymmetric in the color argument:
`simple_eval p c = -simple_eval p (~c)` for every position and color, hence in
particular `simple_eval p White = -simple_eval p Black`. -/
theorem simple_eval_antisymmetric (pos : Position) (c : Color) :
    Eval.simple_eval pos c = -Eval.simple_eval pos c.opp := by
  cases c <;> simp only [Eval.simple_eval, Color.opp] <;> ring

/-- Claim C10: the result of `Eval.evaluate` depends on alpha and beta only
through the `psqtOnly` shortcut condition: two bound pairs giving the same flag
give identical results. -/
theorem evaluate_bounds_only_via_flag (f : NNUEOracle) (pos : Position)
    (optimism a1 b1 a2 b2 : Int)
    (h : psqtOnlyFlag (Eval.simple_eval pos pos.sideToMove) a1 b1 =
         psqtOnlyFlag (Eval.simple_eval pos pos.sideToMove) a2 b2) :
    Eval.evaluate f pos optimism a1 b1 = Eval.evaluate f pos optimism a2 b2 := by
  have e1 : Eval.evaluate f pos optimism a1 b1 =
      evaluateWithFlag f pos optimism
        (psqtOnlyFlag (Eval.simple_eval pos pos.sideToMove) a1 b1) := rfl
  have e2 : Eval.evaluate f pos optimism a2 b2 =
      evaluateWithFlag f pos optimism
        (psqtOnlyFlag (Eval.simple_eval pos pos.sideToMove) a2 b2) := rfl
  rw [e1, e2, h]

/-- Witness for C10 at two concrete bound pairs giving the same flag. -/
theorem evaluate_bounds_only_via_flag_witness :
    Eval.evaluate (constOracle 100 50) testPos 7 (-50) 50 =
    Eval.evaluate (constOracle 100 50) testPos 7 (-60) 60 :=
  evaluate_bounds_only_via_flag (constOracle 100 50) testPos 7 (-50) 50 (-60) 60
    (by decide)

/-- Configuration lookup `options[name]`: the configured string value for an
option identifier (empty string means "use default"). -/
abbrev OptionsMap : Type := String → String

/-- The `EvalFile` record (evaluate.h, outside src/; fields as used by
evaluate.cpp): option identifier, default file name, name of the network
actually loaded, and the parsed network description. -/
structure EvalFile where
  optionName : String
  defaultName : String
  current : String
  netDescription : String
deriving DecidableEq

/-- Resolution of the desired file name shared by `NNUE::load_networks`
(lines 54-57) and `NNUE::verify` (lines 85-88): the configured value, or the
default name when that value is empty. -/
def resolveFileName (options : OptionsMap) (evalFile : EvalFile) : String :=
  let user_eval_file := options evalFile.optionName
  if user_eval_file = "" then evalFile.defaultName else user_eval_file

/-- The two-stage parse attempt at one path (lines 64-70): first the
compressed-container route (`read_zipped_nnue` then `NNUE::load_eval`), then the
raw binary stream route.  The two routes are oracles `zipped` and `raw` from
path to optional parsed description, since the filesystem and `NNUE::load_eval`
are outside src/. -/
def parseFallback (zipped raw : String → Option String) (path : String) :
    Option String :=
  match zipped path with
  | some d => some d
  | none => raw path

/-- One iteration of the directory loop of `NNUE::load_networks`
(lines 61-77): skip if the desired network is already loaded, otherwise try to
parse at `directory ++ user_eval_file` and on success update both fields. -/
def loadStep (zipped raw : String → Option String) (user_eval_file : String)
    (ef : EvalFile) (directory : String) : EvalFile :=
  if ef.current ≠ user_eval_file then
    match parseFallback zipped raw (directory ++ user_eval_file) with
    | some d => { ef with current := user_eval_file, netDescription := d }
    | none => ef
  else ef

/-- `NNUE::load_networks` (evaluate.cpp lines 50-80): resolve the desired file
name and fold the loop body over the candidate directories, the working
directory (empty prefix) then the root directory. -/
def NNUE.load_networks (zipped raw : String → Option String)
    (rootDirectory : String) (options : OptionsMap) (evalFile : EvalFile) :
    EvalFile :=
  let user_eval_file := resolveFileName options evalFile
  let dirs : List String := ["", rootDirectory]
  dirs.foldl (loadStep zipped raw user_eval_file) evalFile

/-- Outcome of `NNUE::verify`: either the fatal path (diagnostic lines plus
`exit` status) or the normal path with its confirmation message. -/
inductive VerifyOutcome
  | fatal (messages : List String) (exitCode : Nat)
  | ok (message : String)
deriving DecidableEq

/-- Whether a `VerifyOutcome` is the fatal path. -/
def VerifyOutcome.isFatal : VerifyOutcome → Bool
  | .fatal _ _ => true
  | .ok _ => false

/-- The five diagnostic lines emitted on the fatal path of `NNUE::verify`
(lines 93-108), each as printed with its `info string ERROR: ` prefix. -/
def fatalDiagnostic (user_eval_file defaultName : String) : List String :=
  ["info string ERROR: Network evaluation parameters compatible with the engine must be available.",
   "info string ERROR: The network file " ++ user_eval_file ++ " was not loaded successfully.",
   "info string ERROR: The UCI option EvalFile might need to specify the full path, including the directory name, to the network file.",
   "info string ERROR: The default net can be downloaded from: https://github.com/official-pikafish/Networks/releases/download/master-net/" ++ defaultName,
   "info string ERROR: The engine will be terminated now."]

/-- `NNUE::verify` (evaluate.cpp lines 83-114).  `exit(EXIT_FAILURE)` is
modelled as the fatal outcome with exit status 1. -/
def NNUE.verify (options : OptionsMap) (evalFile : EvalFile) : VerifyOutcome :=
  let user_eval_file := resolveFileName options evalFile
  if evalFile.current ≠ user_eval_file then
    .fatal (fatalDiagnostic user_eval_file evalFile.defaultName) 1
  else
    .ok ("info string NNUE evaluation using " ++ user_eval_file ++ " enabled")

/-- The empty configuration: every option maps to the empty string. -/
def optsEmpty : OptionsMap := fun _ => ""

/-- A state whose loaded network matches the default configuration. -/
def evalFileGood : EvalFile := ⟨"EvalFile", "pikafish.nnue", "pikafish.nnue", "desc"⟩

/-- A state whose loaded network is still the `"none"` sentinel. -/
def evalFileBad : EvalFile := ⟨"EvalFile", "pikafish.nnue", "none", ""⟩

/-- A filesystem oracle on which every parse attempt fails. -/
def noFile : String → Option String := fun _ => none

/-- Claim C2: `NNUE.verify` resolves the desired name as the configured value
or the default when empty; the fatal path (non-zero exit status and the
structured diagnostic) is taken if and only if the loaded name differs from the
desired name, and otherwise the confirmation message naming the loaded file is
emitted. -/
theorem verify_fatal_iff (options : OptionsMap) (evalFile : EvalFile) :
    ((NNUE.verify options evalFile).isFatal = true ↔
      evalFile.current ≠ resolveFileName options evalFile)
    ∧ (evalFile.current ≠ resolveFileName options evalFile →
        NNUE.verify options evalFile =
          VerifyOutcome.fatal
            (fatalDiagnostic (resolveFileName options evalFile) evalFile.defaultName) 1)
    ∧ (evalFile.current = resolveFileName options evalFile →
        NNUE.verify options evalFile =
          VerifyOutcome.ok
            ("info string NNUE evaluation using " ++ resolveFileName options evalFile
              ++ " enabled")) := by
  refine ⟨?_, ?_, ?_⟩
  · by_cases h : evalFile.current = resolveFileName options evalFile <;>
      simp [NNUE.verify, VerifyOutcome.isFatal, h]
  · intro h
    simp [NNUE.verify, h]
  · intro h
    simp [NNUE.verify, h]

/-- Witness for C2: the fatal branch at a state still holding the `"none"`
sentinel, and the normal branch at a state holding the desired network. -/
theorem verify_fatal_iff_witness :
    NNUE.verify optsEmpty evalFileBad =
      VerifyOutcome.fatal
        (fatalDiagnostic (resolveFileName optsEmpty evalFileBad) evalFileBad.defaultName) 1
    ∧ NNUE.verify optsEmpty evalFileGood =
        VerifyOutcome.ok
          ("info string NNUE evaluation using " ++ resolveFileName optsEmpty evalFileGood
            ++ " enabled") :=
  ⟨(verify_fatal_iff optsEmpty evalFileBad).2.1 (by decide),
   (verify_fatal_iff optsEmpty evalFileGood).2.2 (by decide)⟩

/-- Claim C3: when no candidate path (working directory then root directory,
each through the compressed then the raw parse attempt) yields a parsed
description, `NNUE.load_networks` returns a state identical to its input; as a
total Lean function it also cannot throw or abort. -/
theorem load_networks_no_candidate_id (zipped raw : String → Option String)
    (rootDirectory : String) (options : OptionsMap) (evalFile : EvalFile)
    (h : ∀ directory ∈ (["", rootDirectory] : List String),
        parseFallback zipped raw (directory ++ resolveFileName options evalFile) = none) :
    NNUE.load_networks zipped raw rootDirectory options evalFile = evalFile := by
  have h1 : parseFallback zipped raw (resolveFileName options evalFile) = none := by
    simpa using h "" (by simp)
  have h2 := h rootDirectory (by simp)
  by_cases hc : evalFile.current = resolveFileName options evalFile <;>
    simp [NNUE.load_networks, List.foldl, loadStep, hc, h1, h2]

/-- Witness for C3: on the everywhere-failing filesystem oracle the loader
returns its input state. -/
theorem load_networks_no_candidate_id_witness :
    NNUE.load_networks noFile noFile "root/" optsEmpty evalFileBad = evalFileBad :=
  load_networks_no_candidate_id noFile noFile "root/" optsEmpty evalFileBad
    (by intro d _; rfl)

/-- Claim C8: the state returned by `NNUE.load_networks` updates
`current` and `netDescription` together: either it equals the prior state, or
`current` is the desired name and `netDescription` is the description parsed at
one of the candidate directories. -/
theorem load_networks_atomic_update (zipped raw : String → Option String)
    (rootDirectory : String) (options : OptionsMap) (evalFile : EvalFile) :
    NNUE.load_networks zipped raw rootDirectory options evalFile = evalFile
    ∨ ((NNUE.load_networks zipped raw rootDirectory options evalFile).current =
          resolveFileName options evalFile
        ∧ ∃ directory ∈ (["", rootDirectory] : List String),
            parseFallback zipped raw (directory ++ resolveFileName options evalFile) =
              some (NNUE.load_networks zipped raw rootDirectory options
                evalFile).netDescription) := by
  by_cases hc : evalFile.current = resolveFileName options evalFile
  · left
    simp [NNUE.load_networks, List.foldl, loadStep, hc]
  · rcases hz : parseFallback zipped raw (resolveFileName options evalFile) with _ | d
    · rcases hz2 : parseFallback zipped raw
          (rootDirectory ++ resolveFileName options evalFile) with _ | d2
      · left
        simp [NNUE.load_networks, List.foldl, loadStep, hc, hz, hz2]
      · right
        refine ⟨?_, rootDirectory, by simp, ?_⟩ <;>
          simp [NNUE.load_networks, List.foldl, loadStep, hc, hz, hz2]
    · right
      refine ⟨?_, "", by simp, ?_⟩ <;>
        simp [NNUE.load_networks, List.foldl, loadStep, hc, hz]

/-- `Eval::trace` (evaluate.cpp lines 163-187).  The external collaborators are
oracles: `nnueTraceFn` models `NNUE::trace`, `nnueRawEval` models the plain
`NNUE::evaluate(pos)` call, and `showVal` models the iostream rendering
`0.01 * UCI::to_cp(v)` with fixed two-decimal precision and explicit sign,
which is outside the integer model. -/
def Eval.trace (nnueTraceFn : Position → String) (nnueRawEval : Position → Int)
    (nnueEval : NNUEOracle) (showVal : Int → String) (pos : Position) : String :=
  if pos.checkers then "Final evaluation: none (in check)"
  else
    let v1 := nnueRawEval pos
    let v1 := if pos.sideToMove = Color.white then v1 else -v1
    let v2 := Eval.evaluate nnueEval pos VALUE_ZERO (-VALUE_NONE) VALUE_NONE
    let v2 := if pos.sideToMove = Color.white then v2 else -v2
    ("\n" ++ nnueTraceFn pos ++ "\n"
      ++ "NNUE evaluation        " ++ showVal v1 ++ " (white side)\n"
      ++ "Final evaluation       ")
    ++ showVal v2
    ++ (" (white side)" ++ " [with scaled NNUE, ...]" ++ "\n")

/-- Claim C9: `Eval.trace` returns the fixed sentinel string when the side to
move is in check, and otherwise its report contains the final blended
evaluation obtained from `Eval.evaluate` with zero optimism and maximal bounds,
negated when the side to move is Black. -/
theorem trace_sentinel_and_final_eval (nnueTraceFn : Position → String)
    (nnueRawEval : Position → Int) (nnueEval : NNUEOracle)
    (showVal : Int → String) (pos : Position) :
    (pos.checkers = true →
      Eval.trace nnueTraceFn nnueRawEval nnueEval showVal pos =
        "Final evaluation: none (in check)")
    ∧ (pos.checkers = false →
        ∃ before after : String,
          Eval.trace nnueTraceFn nnueRawEval nnueEval showVal pos =
            before
            ++ showVal (if pos.sideToMove = Color.white
                then Eval.evaluate nnueEval pos VALUE_ZERO (-VALUE_NONE) VALUE_NONE
                else -Eval.evaluate nnueEval pos VALUE_ZERO (-VALUE_NONE) VALUE_NONE)
            ++ after) := by
  constructor
  · intro h
    simp [Eval.trace, h]
  · intro h
    refine ⟨"\n" ++ nnueTraceFn pos ++ "\n"
        ++ "NNUE evaluation        "
        ++ showVal (if pos.sideToMove = Color.white then nnueRawEval pos
            else -nnueRawEval pos)
        ++ " (white side)\n" ++ "Final evaluation       ",
      " (white side)" ++ " [with scaled NNUE, ...]" ++ "\n", ?_⟩
    simp [Eval.trace, h]

/-- The test position with the side to move in check. -/
def testPosCheck : Position :=
  ⟨fun _ => 5, fun _ => 2, fun _ => 2, fun _ => 3000, Color.white, 0, true⟩

/-- Witness for C9: the sentinel branch at an in-check position and the report
branch at a position not in check, with concrete oracles. -/
theorem trace_sentinel_and_final_eval_witness :
    Eval.trace (fun _ => "nn") (fun _ => 123) (constOracle 100 50)
        (fun v => toString v) testPosCheck = "Final evaluation: none (in check)"
    ∧ ∃ before after : String,
        Eval.trace (fun _ => "nn") (fun _ => 123) (constOracle 100 50)
            (fun v => toString v) testPos =
          before
          ++ (fun v => toString v) (if testPos.sideToMove = Color.white
              then Eval.evaluate (constOracle 100 50) testPos VALUE_ZERO
                (-VALUE_NONE) VALUE_NONE
              else -Eval.evaluate (constOracle 100 50) testPos VALUE_ZERO
                (-VALUE_NONE) VALUE_NONE)
          ++ after :=
  ⟨(trace_sentinel_and_final_eval (fun _ => "nn") (fun _ => 123) (constOracle 100 50)
      (fun v => toString v) testPosCheck).1 rfl,
   (trace_sentinel_and_final_eval (fun _ => "nn") (fun _ => 123) (constOracle 100 50)
      (fun v => toString v) testPos).2 rfl⟩

end Pikafish
